import Mathlib

/-!
Verification of the ACE compliance-engine extraction pipeline
(`ace/extraction`): plausibility filter, quality scorer, outcome builder,
document classifier, AI-fallback escalation and the run orchestrator.

Monetary amounts (Python `float` dollar values) are modelled as `ℚ`;
optional values as `Option`; Python truthiness of optional numbers and
strings is made explicit (`pyTruthy`, `pyTruthyStr`); code that can raise
is modelled with `Except`.
-/

namespace Ace

/-- Python truthiness of an `Optional[float]`: `None` and `0.0` are falsy. -/
def pyTruthy : Option ℚ → Bool
  | none => false
  | some v => v != 0

/-- Python truthiness of an `Optional[str]`: `None` and `""` are falsy. -/
def pyTruthyStr : Option String → Bool
  | none => false
  | some s => s != ""

/-- Limits map produced by `extract_limits` (parser_acord25.py, lines
178-198): one optional dollar amount per canonical GL coverage code, in the
dict's insertion order. -/
structure Limits where
  gl_each_occ : Option ℚ
  gl_aggregate : Option ℚ
  gl_pers_adv : Option ℚ
  gl_prod_agg : Option ℚ
  gl_damage_prem : Option ℚ
  gl_med_exp : Option ℚ
deriving Repr, DecidableEq

/-- Per-code plausibility rule applied inside the loop of
`_filter_bizarre_values` (parser_acord25.py, lines 144-165) to a non-null
value: primary limits and PERS_ADV/PROD_AGG below $100,000 are rejected,
MED_EXP above $100,000 is rejected, DAMAGE_PREM above $2,000,000 is
rejected; everything else is kept unchanged. -/
def filterValue (code : String) (v : ℚ) : Option ℚ :=
  if code = "GL_EACH_OCC" ∨ code = "GL_AGGREGATE" ∨
     code = "GL_PERS_ADV" ∨ code = "GL_PROD_AGG" then
    if v < 100000 then none else some v
  else if code = "GL_MED_EXP" then
    if v > 100000 then none else some v
  else if code = "GL_DAMAGE_PREM" then
    if v > 2000000 then none else some v
  else some v

/-- Per-code pass of `_filter_bizarre_values` over the six codes
(`None` stays `None`, otherwise `filterValue` is applied). -/
def rangeFiltered (l : Limits) : Limits where
  gl_each_occ := l.gl_each_occ.bind (filterValue "GL_EACH_OCC")
  gl_aggregate := l.gl_aggregate.bind (filterValue "GL_AGGREGATE")
  gl_pers_adv := l.gl_pers_adv.bind (filterValue "GL_PERS_ADV")
  gl_prod_agg := l.gl_prod_agg.bind (filterValue "GL_PROD_AGG")
  gl_damage_prem := l.gl_damage_prem.bind (filterValue "GL_DAMAGE_PREM")
  gl_med_exp := l.gl_med_exp.bind (filterValue "GL_MED_EXP")

/-- Embeds `_filter_bizarre_values` (parser_acord25.py, lines 141-175): the
per-code range pass, then the cross-field correction `if each_occ and
gen_agg and each_occ > gen_agg`, which swaps the two primary limits
(`and` on floats is Python truthiness, hence the `≠ 0` guards). -/
def filter_bizarre_values (l : Limits) : Limits :=
  let f := rangeFiltered l
  match f.gl_each_occ, f.gl_aggregate with
  | some eo, some ga =>
      if eo ≠ 0 ∧ ga ≠ 0 ∧ ga < eo then
        { f with gl_each_occ := some ga, gl_aggregate := some eo }
      else f
  | _, _ => f

/-- Number of non-null entries of the limits map
(`sum(1 for v in limits.values() if v is not None)`). -/
def nonNullCount (l : Limits) : ℕ :=
  [l.gl_each_occ, l.gl_aggregate, l.gl_pers_adv, l.gl_prod_agg,
   l.gl_damage_prem, l.gl_med_exp].countP Option.isSome

/-- Embeds `validate_and_score` (parser_acord25.py, lines 201-234).  The
guards `not each_occ`, `each_occ and gen_agg` are Python truthiness on
`Optional[float]`; `ratio = gen_agg / each_occ if each_occ > 0 else 0`. -/
def validate_and_score (l : Limits) : ℚ × List String :=
  if pyTruthy l.gl_each_occ = false ∧ pyTruthy l.gl_aggregate = false then
    (0, ["Sem limites principais"])
  else
    let i1 : List String :=
      if pyTruthy l.gl_each_occ = false ∨ pyTruthy l.gl_aggregate = false then
        ["Falta limite principal"]
      else []
    let i2 : List String :=
      match l.gl_each_occ, l.gl_aggregate with
      | some eo, some ga =>
          if eo ≠ 0 ∧ ga ≠ 0 then
            (if ga < eo then ["EACH_OCC > AGGREGATE"] else []) ++
            (if (if 0 < eo then ga / eo else 0) < 3/2 then
              ["AGGREGATE muito próximo de EACH_OCC"] else [])
          else []
      | _, _ => []
    let issues := i1 ++ i2
    let valid : ℚ := (nonNullCount l : ℚ)
    let has_both : ℚ :=
      if pyTruthy l.gl_each_occ = true ∧ pyTruthy l.gl_aggregate = true then 1
      else 1/2
    let ratio_ok : ℚ := if issues.length ≤ 1 then 1 else 1/2
    ((valid / 6) * has_both * ratio_ok, issues)

/-- Extracted policy record (ace/extraction/models.py, `ExtractedPolicy`). -/
structure ExtractedPolicy where
  lob_code : String
  carrier_name : Option String
  policy_number : Option String
  effective_date : Option String
  expiration_date : Option String
  cancellation_notice_days : Option ℤ
  source_method : String
  confidence_score : ℚ
deriving Repr, DecidableEq

/-- Extracted coverage record (ace/extraction/models.py,
`ExtractedCoverage`); `policy_index` points into the policies list of the
enclosing `ExtractedCOI`. -/
structure ExtractedCoverage where
  policy_index : ℕ
  coverage_code : String
  limit_amount : Option ℚ
  limit_currency : String
  deductible_amount : Option ℚ
  deductible_currency : String
  source_method : String
  confidence_score : ℚ
deriving Repr, DecidableEq

/-- Extracted clause record (ace/extraction/models.py, `ExtractedClause`). -/
structure ExtractedClause where
  policy_index : ℕ
  clause_code : String
  clause_description : Option String
  source_method : String
  confidence_score : ℚ
deriving Repr, DecidableEq

/-- Aggregate extraction outcome (ace/extraction/models.py, `ExtractedCOI`). -/
structure ExtractedCOI where
  certificate_id : ℤ
  policies : List ExtractedPolicy
  coverages : List ExtractedCoverage
  clauses : List ExtractedClause
  source : String
  quality_score : ℚ
deriving Repr, DecidableEq

/-- Builds one coverage entry of `build_extracted_coi` for a non-null
limit (parser_acord25.py, lines 252-263). -/
def mkCoverage (code : String) : Option ℚ → List ExtractedCoverage
  | none => []
  | some a =>
      [{ policy_index := 0, coverage_code := code, limit_amount := some a,
         limit_currency := "USD", deductible_amount := none,
         deductible_currency := "USD", source_method := "REGEX_PARSER",
         confidence_score := 8/10 }]

/-- Embeds `build_extracted_coi` (parser_acord25.py, lines 237-274):
a single GL policy is emitted only when `policy_number or eff_date` is
truthy; one coverage with `policy_index = 0` is emitted per non-null
limit, in dict insertion order. -/
def build_extracted_coi (certificate_id : ℤ)
    (policy_number eff_date exp_date : Option String)
    (limits : Limits) (quality_score : ℚ) : ExtractedCOI :=
  let policies :=
    if pyTruthyStr policy_number || pyTruthyStr eff_date then
      [{ lob_code := "GL", carrier_name := none, policy_number := policy_number,
         effective_date := eff_date, expiration_date := exp_date,
         cancellation_notice_days := none, source_method := "REGEX_PARSER",
         confidence_score := if pyTruthyStr policy_number then 8/10 else 5/10 }]
    else []
  let coverages :=
    mkCoverage "GL_EACH_OCC" limits.gl_each_occ ++
    mkCoverage "GL_AGGREGATE" limits.gl_aggregate ++
    mkCoverage "GL_PERS_ADV" limits.gl_pers_adv ++
    mkCoverage "GL_PROD_AGG" limits.gl_prod_agg ++
    mkCoverage "GL_DAMAGE_PREM" limits.gl_damage_prem ++
    mkCoverage "GL_MED_EXP" limits.gl_med_exp
  { certificate_id := certificate_id, policies := policies,
    coverages := coverages, clauses := [], source := "REGEX_PARSER",
    quality_score := quality_score }

/-- Embeds the outcome-selection logic of `parse_acord25_gl_limits`
(parser_acord25.py, lines 286-321), taking the heuristic quality score, the
heuristic outcome that `build_extracted_coi` would produce, and the result
of the `parse_with_haiku` call as inputs.  `fallbackConfigured` models
`CLAUDE_AVAILABLE and hasattr(pages[0], '_source_pdf')`; the fallback
result `.error m` models the call raising (caught by `except Exception`),
`.ok none` models it returning `None`. -/
def parse_decision (quality : ℚ) (heuristic : ExtractedCOI)
    (fallbackConfigured : Bool)
    (fallbackResult : Except String (Option ExtractedCOI)) :
    Option ExtractedCOI :=
  if quality = 0 then
    (if fallbackConfigured then
      match fallbackResult with
      | .ok (some r) => if 7/10 ≤ r.quality_score then some r else none
      | _ => none
    else none)
  else if 7/10 ≤ quality then some heuristic
  else if fallbackConfigured then
    match fallbackResult with
    | .ok (some r) => if 7/10 ≤ r.quality_score then some r else some heuristic
    | _ => some heuristic
  else some heuristic

/-- Document types of the classifier (classifier.py, `DocType`). -/
inductive DocType
  | ACORD_25_COI
  | WORKERS_COMP
  | AUTO_LIABILITY
  | ENDORSEMENT
  | CERTIFICATE_GENERIC
  | UNKNOWN
deriving Repr, DecidableEq

/-- Indicator normalization used when recording a matched pattern
(classifier.py, lines 183 and 194):
`pattern.replace(r'\s+', ' ').replace(r'\s*', '')`. -/
def cleanPattern (p : String) : String :=
  (p.replace "\\s+" " ").replace "\\s*" ""

/-- Embeds `DocumentClassifier._evaluate_type` (classifier.py, lines
165-202), with `re.search` abstracted as the Boolean matcher `m` applied to
a pattern and the (already uppercased) text: unless every required pattern
matches the score is exactly `0`; otherwise the score is
`min(1.0, (0.5 + 0.1 * strong_found) * weight)`. -/
def evaluate_type (m : String → String → Bool) (text : String)
    (required strong : List String) (weight : ℚ) : ℚ × List String :=
  let reqInd := (required.filter (fun p => m p text)).map cleanPattern
  let required_found := required.countP (fun p => m p text)
  if required_found < required.length then (0, reqInd)
  else
    let strongInd := (strong.filter (fun p => m p text)).map cleanPattern
    let strong_found := strong.countP (fun p => m p text)
    (min 1 ((1/2 + (strong_found : ℚ)/10) * weight), reqInd ++ strongInd)

/-- Pattern table `DocumentClassifier.PATTERNS` (classifier.py, lines
42-109) as data: document type, required patterns, strong patterns, weight. -/
def PATTERNS : List (DocType × List String × List String × ℚ) :=
  [ (.ACORD_25_COI,
      ["ACORD\\s*25", "CERTIFICATE\\s+OF\\s+(LIABILITY\\s+)?INSURANCE"],
      ["GENERAL\\s+LIABILITY", "EACH\\s+OCCURRENCE", "AGGREGATE",
       "PRODUCTS.*COMP.*OP.*AGG"],
      1),
    (.WORKERS_COMP,
      ["WORKERS?\\s*\x27?\\s*COMP"],
      ["WC\\s+STATUTORY\\s+LIMITS", "EMPLOYERS?\\s+LIABILITY",
       "DISEASE.*POLICY\\s+LIMIT", "DISEASE.*EACH\\s+EMPLOYEE"],
      9/10),
    (.AUTO_LIABILITY,
      ["AUTOMOBILE\\s+LIABILITY", "AUTO\\s+LIABILITY"],
      ["ANY\\s+AUTO", "OWNED\\s+AUTOS\\s+ONLY", "SCHEDULED\\s+AUTOS",
       "HIRED\\s+AUTOS", "NON.*OWNED\\s+AUTOS"],
      8/10),
    (.ENDORSEMENT,
      ["ENDORSEMENT", "THIS\\s+ENDORSEMENT\\s+CHANGES\\s+THE\\s+POLICY"],
      ["POLICY\\s+NUMBER", "ENDORSEMENT\\s+NUMBER",
       "EFFECTIVE\\s+DATE\\s+OF\\s+ENDORSEMENT"],
      7/10),
    (.CERTIFICATE_GENERIC,
      ["CERTIFICATE"],
      ["INSURED", "POLICY\\s+NUMBER", "COVERAGE"],
      1/2) ]

/-- Python `str.strip()` on the character sequence: whitespace is removed
from both ends. -/
def pyStrip (s : String) : String :=
  ⟨((s.data.dropWhile Char.isWhitespace).reverse.dropWhile
      Char.isWhitespace).reverse⟩

/-- Python `str.isdigit` restricted to the ASCII repertoire the policy
number regexes can capture: true iff the string is non-empty and every
character is a decimal digit. -/
def pyIsDigit (s : String) : Bool :=
  !s.data.isEmpty && s.data.all Char.isDigit

/-- Embeds the candidate filtering and selection of `extract_policy_number`
(parser_acord25.py, lines 82-96).  The raw `group(1)` capture of each regex
match, in pattern-then-position order, is the input list; each is stripped,
kept only when its length is between 6 and 20 and it is not purely numeric,
and the first surviving candidate (or `None`) is returned. -/
def extract_policy_number (rawMatches : List String) : Option String :=
  let candidates := (rawMatches.map pyStrip).filter
    (fun s => decide (6 ≤ s.length) && decide (s.length ≤ 20) && !(pyIsDigit s))
  candidates.head?

/-- Run statuses (`ExtractionStatus`, ace/utils/enums.py). -/
inductive ExtractionStatus
  | PENDING
  | STARTED
  | OCR_IN_PROGRESS
  | PARSING
  | SUCCESS
  | FAILED
  | OCR_FAILED
  | PARSING_FAILED
  | VALIDATION_FAILED
  | TIMEOUT
deriving Repr, DecidableEq

/-- Exception classes seen by `process_certificate` (ace/utils/exceptions.py
plus tenacity): `ocr` is OCRException, `parsing` ParsingException, `db`
DatabaseException, `retryExhausted` the tenacity `RetryError` raised once
`stop_after_attempt(3)` gives up (`reraise` is left at its default), and
`other` any other exception. -/
inductive RunError
  | ocr (msg : String)
  | parsing (msg : String)
  | db (msg : String)
  | retryExhausted (msg : String)
  | other (msg : String)
deriving Repr, DecidableEq

/-- Message carried by a `RunError`. -/
def describeError : RunError → String
  | .ocr m => m
  | .parsing m => m
  | .db m => m
  | .retryExhausted m => m
  | .other m => m

/-- Observable side effects of one `process_certificate` call, in order:
run-status DB writes, OCR attempts, retry sleeps, the parser call and the
persistence call. -/
inductive Event
  | statusWrite (s : ExtractionStatus)
  | acquireCall (attempt : ℕ)
  | waitSeconds (q : ℚ)
  | parseCall
  | persistCall
deriving Repr, DecidableEq

/-- Environment of one run: the result of each `extract_text_from_pdf`
attempt by 1-based attempt number (`.error` = the call raised, any class),
the result of the single `_parse_with_timeout` parser invocation (`.error`
= it raised or the parser returned `None`, both re-raised as
ParsingException), and of the single `persist_extracted_coi` call. -/
structure StepBehavior where
  acquire : ℕ → Except String String
  parseRes : Except String ExtractedCOI
  persistRes : Except String Unit

/-- Sleep computed by tenacity `wait_exponential(multiplier=1, min=2,
max=10)` after the n-th failed attempt: `clamp(1 * 2^n, 2, 10)`. -/
def backoffWait (attempt : ℕ) : ℚ :=
  max 2 (min ((2 : ℚ) ^ attempt) 10)

/-- Embeds the tenacity retry loop wrapping `_extract_text_with_retry`
(runner.py, lines 82-106): every exception of the wrapped body is re-raised
as OCRException, which is the retryable class, so each failed attempt up to
`stop_after_attempt(3)` sleeps `backoffWait` and retries; after the last
allowed attempt fails tenacity raises `RetryError`.  Returns the outcome
together with the side effects performed. -/
def retryAcquire (acquire : ℕ → Except String String) :
    ℕ → ℕ → Except RunError String × List Event
  | _, 0 => (.error (.retryExhausted "stop_after_attempt"), [])
  | attempt, remaining + 1 =>
    match acquire attempt with
    | .ok t => (.ok t, [.acquireCall attempt])
    | .error m =>
      if remaining = 0 then (.error (.retryExhausted m), [.acquireCall attempt])
      else
        let next := retryAcquire acquire (attempt + 1) remaining
        (next.1, .acquireCall attempt :: .waitSeconds (backoffWait attempt) :: next.2)

/-- Text acquisition with retry: at most 3 attempts, starting at attempt 1. -/
def extract_text_with_retry (acquire : ℕ → Except String String) :
    Except RunError String × List Event :=
  retryAcquire acquire 1 3

/-- Embeds the body of the `with self._db_transaction()` block of
`process_certificate` (runner.py, lines 178-202): create the run (STARTED),
set OCR_IN_PROGRESS, acquire text with retry, set PARSING, parse, persist,
set SUCCESS.  Returns the body's outcome and its side effects in order. -/
def runBody (b : StepBehavior) : Except RunError Unit × List Event :=
  let pre := [Event.statusWrite .STARTED, Event.statusWrite .OCR_IN_PROGRESS]
  let acq := extract_text_with_retry b.acquire
  match acq.1 with
  | .error e => (.error e, pre ++ acq.2)
  | .ok _ =>
    let evs := pre ++ acq.2 ++ [Event.statusWrite .PARSING, Event.parseCall]
    match b.parseRes with
    | .error m => (.error (.parsing m), evs)
    | .ok _ =>
      let evs2 := evs ++ [Event.persistCall]
      match b.persistRes with
      | .error m => (.error (.db m), evs2)
      | .ok _ => (.ok (), evs2 ++ [Event.statusWrite .SUCCESS])

/-- Embeds `_db_transaction` (runner.py, lines 28-42): on success the
body's writes are committed; any exception escaping the with-body is caught
by the context manager's `except Exception`, the transaction is rolled back,
and a DatabaseException is raised in its place. -/
def dbTransaction : Except RunError Unit → Except RunError Unit
  | .ok u => .ok u
  | .error e => .error (.db (describeError e))

/-- Modelled from the spec: the certificate-status write of the run driver
(`run_extraction_for_certificate`, imported by
scripts/process_extraction_queue.py but absent from src).  The spec says a
failed run marks its certificate FAILED and a persisted outcome marks it
SUCCESS. -/
def certStatusFor (final : ExtractionStatus) : ExtractionStatus :=
  if final = .SUCCESS then .SUCCESS else .FAILED

/-- Run-status writes among a list of events, in order. -/
def statusWritesOf : List Event → List ExtractionStatus
  | [] => []
  | .statusWrite s :: rest => s :: statusWritesOf rest
  | _ :: rest => statusWritesOf rest

/-- Result of one `process_certificate` call: the `result['status']` value,
the side-effect calls attempted in order, the run-status writes that
survived commit/rollback, and the (spec-modelled) certificate status. -/
structure RunResult where
  resultStatus : ExtractionStatus
  events : List Event
  committedWrites : List ExtractionStatus
  certStatus : ExtractionStatus
deriving Repr, DecidableEq

/-- Embeds `ExtractionRunner.process_certificate` (runner.py, lines
149-244).  The main flow runs inside one `_db_transaction`; the `except`
clauses then match the escaped exception in order (OCRException,
ParsingException, DatabaseException, Exception).  Because `_db_transaction`
re-raises every body exception as DatabaseException, any body failure rolls
back the body's writes and lands in the DatabaseException clause, which
performs no further status write. -/
def process_certificate (b : StepBehavior) : RunResult :=
  let body := runBody b
  match dbTransaction body.1 with
  | .ok _ =>
      { resultStatus := .SUCCESS, events := body.2,
        committedWrites := statusWritesOf body.2,
        certStatus := certStatusFor .SUCCESS }
  | .error (.ocr _) =>
      { resultStatus := .OCR_FAILED,
        events := body.2 ++ [.statusWrite .OCR_FAILED],
        committedWrites := [.OCR_FAILED],
        certStatus := certStatusFor .OCR_FAILED }
  | .error (.parsing _) =>
      { resultStatus := .PARSING_FAILED,
        events := body.2 ++ [.statusWrite .PARSING_FAILED],
        committedWrites := [.PARSING_FAILED],
        certStatus := certStatusFor .PARSING_FAILED }
  | .error (.db _) =>
      { resultStatus := .FAILED, events := body.2,
        committedWrites := [],
        certStatus := certStatusFor .FAILED }
  | .error _ =>
      { resultStatus := .FAILED,
        events := body.2 ++ [.statusWrite .FAILED],
        committedWrites := [.FAILED],
        certStatus := certStatusFor .FAILED }

/-- Concrete fixture: the outcome `build_extracted_coi` produces for a
document whose primary limits were extracted but whose policy number and
dates were not. -/
def danglingCoi : ExtractedCOI :=
  build_extracted_coi 7 none none none
    ⟨some 1000000, some 2000000, none, none, none, none⟩ (1/3)

/-- Concrete fixture: the first coverage of `danglingCoi`. -/
def danglingCoverage : ExtractedCoverage :=
  { policy_index := 0, coverage_code := "GL_EACH_OCC",
    limit_amount := some 1000000, limit_currency := "USD",
    deductible_amount := none, deductible_currency := "USD",
    source_method := "REGEX_PARSER", confidence_score := 8/10 }

/-- Concrete fixture: a heuristic outcome with quality score 0.4. -/
def sampleHeuristic : ExtractedCOI :=
  { certificate_id := 7, policies := [], coverages := [], clauses := [],
    source := "REGEX_PARSER", quality_score := 2/5 }

/-- Concrete fixture: a fallback outcome with quality score 0.5 (what
`_build_coi_from_json` returns for fewer than two coverages). -/
def sampleFallbackLow : ExtractedCOI :=
  { certificate_id := 7, policies := [], coverages := [], clauses := [],
    source := "CLAUDE_HAIKU", quality_score := 1/2 }

/-- Concrete fixture: a fallback outcome with quality score 0.9. -/
def sampleFallbackHigh : ExtractedCOI :=
  { certificate_id := 7, policies := [], coverages := [], clauses := [],
    source := "CLAUDE_HAIKU", quality_score := 9/10 }

/-- Number of OCR attempt calls among a list of events. -/
def countAcquire : List Event → ℕ
  | [] => 0
  | .acquireCall _ :: rest => countAcquire rest + 1
  | _ :: rest => countAcquire rest

/-- Number of parser calls among a list of events. -/
def countParse : List Event → ℕ
  | [] => 0
  | .parseCall :: rest => countParse rest + 1
  | _ :: rest => countParse rest

/-- Number of persistence calls among a list of events. -/
def countPersist : List Event → ℕ
  | [] => 0
  | .persistCall :: rest => countPersist rest + 1
  | _ :: rest => countPersist rest

/-- Concrete fixture: a run environment whose OCR attempts all raise. -/
def allFailBehavior : StepBehavior :=
  { acquire := fun _ => .error "ocr down",
    parseRes := .ok sampleHeuristic,
    persistRes := .ok () }

end Ace

/-! ## Helper lemmas -/

namespace Ace

lemma pyTruthy_isSome {o : Option ℚ} (h : pyTruthy o = true) : o.isSome = true := by
  cases o <;> simp_all [pyTruthy]

lemma bind_primary_ge (code : String)
    (hc : code = "GL_EACH_OCC" ∨ code = "GL_AGGREGATE" ∨
          code = "GL_PERS_ADV" ∨ code = "GL_PROD_AGG")
    (o : Option ℚ) (v : ℚ) (h : o.bind (filterValue code) = some v) :
    100000 ≤ v := by
  rcases o with _ | x
  · simp at h
  · rw [Option.some_bind] at h
    unfold filterValue at h
    rw [if_pos hc] at h
    split at h
    · simp at h
    · next hx =>
      obtain rfl : x = v := by injection h
      exact not_lt.mp hx

lemma bind_med_le (o : Option ℚ) (v : ℚ)
    (h : o.bind (filterValue "GL_MED_EXP") = some v) : v ≤ 100000 := by
  rcases o with _ | x
  · simp at h
  · rw [Option.some_bind] at h
    unfold filterValue at h
    rw [if_neg (by simp), if_pos rfl] at h
    split at h
    · simp at h
    · next hx =>
      obtain rfl : x = v := by injection h
      exact not_lt.mp hx

lemma bind_dam_le (o : Option ℚ) (v : ℚ)
    (h : o.bind (filterValue "GL_DAMAGE_PREM") = some v) : v ≤ 2000000 := by
  rcases o with _ | x
  · simp at h
  · rw [Option.some_bind] at h
    unfold filterValue at h
    rw [if_neg (by simp), if_neg (by simp), if_pos rfl] at h
    split at h
    · simp at h
    · next hx =>
      obtain rfl : x = v := by injection h
      exact not_lt.mp hx

lemma filterValue_primary_null (code : String)
    (hc : code = "GL_EACH_OCC" ∨ code = "GL_AGGREGATE" ∨
          code = "GL_PERS_ADV" ∨ code = "GL_PROD_AGG")
    (x : ℚ) (hx : x < 100000) : filterValue code x = none := by
  unfold filterValue
  rw [if_pos hc, if_pos hx]

lemma filterValue_med_null (x : ℚ) (hx : 100000 < x) :
    filterValue "GL_MED_EXP" x = none := by
  unfold filterValue
  rw [if_neg (by simp), if_pos rfl, if_pos hx]

lemma filterValue_dam_null (x : ℚ) (hx : 2000000 < x) :
    filterValue "GL_DAMAGE_PREM" x = none := by
  unfold filterValue
  rw [if_neg (by simp), if_neg (by simp), if_pos rfl, if_pos hx]

lemma fbv_others (l : Limits) :
    (filter_bizarre_values l).gl_pers_adv = (rangeFiltered l).gl_pers_adv ∧
    (filter_bizarre_values l).gl_prod_agg = (rangeFiltered l).gl_prod_agg ∧
    (filter_bizarre_values l).gl_damage_prem = (rangeFiltered l).gl_damage_prem ∧
    (filter_bizarre_values l).gl_med_exp = (rangeFiltered l).gl_med_exp := by
  unfold filter_bizarre_values
  rcases h1 : (rangeFiltered l).gl_each_occ with _ | x <;>
    rcases h2 : (rangeFiltered l).gl_aggregate with _ | y <;>
    simp [h1, h2]
  split <;> simp

lemma fbv_each_mem (l : Limits) (v : ℚ)
    (h : (filter_bizarre_values l).gl_each_occ = some v) :
    (rangeFiltered l).gl_each_occ = some v ∨
    (rangeFiltered l).gl_aggregate = some v := by
  unfold filter_bizarre_values at h
  rcases h1 : (rangeFiltered l).gl_each_occ with _ | x <;>
    rcases h2 : (rangeFiltered l).gl_aggregate with _ | y <;>
    simp [h1, h2] at h
  · exact Or.inl (by rw [h])
  · split at h
    · simp only at h
      exact Or.inr (by rw [← h])
    · rw [h1] at h
      exact Or.inl (by rw [← h])

lemma fbv_agg_mem (l : Limits) (v : ℚ)
    (h : (filter_bizarre_values l).gl_aggregate = some v) :
    (rangeFiltered l).gl_each_occ = some v ∨
    (rangeFiltered l).gl_aggregate = some v := by
  unfold filter_bizarre_values at h
  rcases h1 : (rangeFiltered l).gl_each_occ with _ | x <;>
    rcases h2 : (rangeFiltered l).gl_aggregate with _ | y <;>
    simp [h1, h2] at h
  · exact Or.inr (by rw [h])
  · split at h
    · simp only at h
      exact Or.inl (by rw [← h])
    · rw [h2] at h
      exact Or.inr (by rw [← h])

lemma fbv_each_none (l : Limits) (h : (rangeFiltered l).gl_each_occ = none) :
    (filter_bizarre_values l).gl_each_occ = none := by
  unfold filter_bizarre_values
  rcases h2 : (rangeFiltered l).gl_aggregate with _ | y <;> simp [h, h2]

lemma fbv_agg_none (l : Limits) (h : (rangeFiltered l).gl_aggregate = none) :
    (filter_bizarre_values l).gl_aggregate = none := by
  unfold filter_bizarre_values
  rcases h1 : (rangeFiltered l).gl_each_occ with _ | x <;> simp [h, h1]

lemma fbv_swap_le (l : Limits) (eo ga : ℚ)
    (heo : (filter_bizarre_values l).gl_each_occ = some eo)
    (hga : (filter_bizarre_values l).gl_aggregate = some ga)
    (hEo : ∀ v, (rangeFiltered l).gl_each_occ = some v → 100000 ≤ v)
    (hGa : ∀ v, (rangeFiltered l).gl_aggregate = some v → 100000 ≤ v) :
    eo ≤ ga := by
  unfold filter_bizarre_values at heo hga
  rcases h1 : (rangeFiltered l).gl_each_occ with _ | x <;>
    rcases h2 : (rangeFiltered l).gl_aggregate with _ | y <;>
    simp [h1, h2] at heo hga
  by_cases hc : ¬x = 0 ∧ ¬y = 0 ∧ y < x
  · rw [if_pos hc] at heo hga
    simp only [Option.some.injEq] at heo hga
    rw [← heo, ← hga]
    exact le_of_lt hc.2.2
  · rw [if_neg hc] at heo hga
    rw [h1] at heo
    rw [h2] at hga
    simp only [Option.some.injEq] at heo hga
    push_neg at hc
    have hx := hEo x h1
    have hy := hGa y h2
    have hxy : x ≤ y := hc (by linarith) (by linarith)
    rw [← heo, ← hga]
    exact hxy

lemma nonNullCount_pos (l : Limits)
    (h : pyTruthy l.gl_each_occ = true ∨ pyTruthy l.gl_aggregate = true) :
    0 < nonNullCount l := by
  refine List.countP_pos_iff.mpr ?_
  rcases h with h | h
  · exact ⟨l.gl_each_occ, by simp, pyTruthy_isSome h⟩
  · exact ⟨l.gl_aggregate, by simp, pyTruthy_isSome h⟩

lemma ite_half_pos (c : Prop) [Decidable c] : (0:ℚ) < if c then 1 else 1/2 := by
  split <;> norm_num

lemma score_pos (l : Limits)
    (hn : ¬(pyTruthy l.gl_each_occ = false ∧ pyTruthy l.gl_aggregate = false)) :
    0 < (validate_and_score l).1 := by
  unfold validate_and_score
  rw [if_neg hn]
  have hor : pyTruthy l.gl_each_occ = true ∨ pyTruthy l.gl_aggregate = true := by
    cases hE : pyTruthy l.gl_each_occ <;> cases hA : pyTruthy l.gl_aggregate
    · exact absurd ⟨hE, hA⟩ hn
    · exact Or.inr rfl
    · exact Or.inl rfl
    · exact Or.inl rfl
  have hc : 0 < nonNullCount l := nonNullCount_pos l hor
  have h6 : (0:ℚ) < (nonNullCount l : ℚ) / 6 := by
    apply div_pos _ (by norm_num)
    exact_mod_cast hc
  simp only
  exact mul_pos (mul_pos h6 (ite_half_pos _)) (ite_half_pos _)

end Ace

/-! ## Claim theorems: plausibility filter and quality scorer -/

namespace Ace

/-- C1 counterexample: the limits map with `GL_EACH_OCC = 0.0` (a non-null
primary limit) and `GL_AGGREGATE = None` is scored `0.0` by
`validate_and_score`, so the score is not `0.0` "if and only if both
primary limits are null", and a non-null primary limit does not make the
score strictly positive. -/
theorem score_zero_despite_nonnull_primary :
    (validate_and_score ⟨some 0, none, none, none, none, none⟩).1 = 0 ∧
    (⟨some 0, none, none, none, none, none⟩ : Limits).gl_each_occ ≠ none := by
  constructor
  · simp [validate_and_score, pyTruthy]
  · simp

/-- C1 (amended): `validate_and_score` returns `0.0` if and only if both
primary limits are Python-falsy (null or exactly `0.0`); when at least one
primary limit is non-null and nonzero the score is strictly positive. -/
theorem score_zero_iff_primary_falsy (l : Limits) :
    ((validate_and_score l).1 = 0 ↔
      pyTruthy l.gl_each_occ = false ∧ pyTruthy l.gl_aggregate = false) ∧
    (¬(pyTruthy l.gl_each_occ = false ∧ pyTruthy l.gl_aggregate = false) →
      0 < (validate_and_score l).1) := by
  constructor
  · constructor
    · intro h0
      by_contra hb
      exact absurd h0 (ne_of_gt (score_pos l hb))
    · intro hb
      unfold validate_and_score
      rw [if_pos hb]
  · exact score_pos l

/-- C1 witness: at the concrete map with only `GL_EACH_OCC = 1000000` the
amended theorem yields a strictly positive score. -/
theorem score_zero_iff_primary_falsy_witness :
    0 < (validate_and_score ⟨some 1000000, none, none, none, none, none⟩).1 :=
  (score_zero_iff_primary_falsy ⟨some 1000000, none, none, none, none, none⟩).2
    (by simp [pyTruthy])

/-- C2: after `_filter_bizarre_values`, whenever both primary limits are
non-null, each-occurrence is at most the aggregate; and the inverted input
(each-occurrence $5,000,000, aggregate $1,000,000) has its two values
swapped rather than rejected. -/
theorem filter_each_le_aggregate (l : Limits) :
    (∀ eo ga, (filter_bizarre_values l).gl_each_occ = some eo →
      (filter_bizarre_values l).gl_aggregate = some ga → eo ≤ ga) ∧
    filter_bizarre_values ⟨some 5000000, some 1000000, none, none, none, none⟩
      = ⟨some 1000000, some 5000000, none, none, none, none⟩ := by
  constructor
  · intro eo ga heo hga
    refine fbv_swap_le l eo ga heo hga ?_ ?_
    · intro v h
      exact bind_primary_ge "GL_EACH_OCC" (Or.inl rfl) l.gl_each_occ v
        (by simpa [rangeFiltered] using h)
    · intro v h
      exact bind_primary_ge "GL_AGGREGATE" (Or.inr (Or.inl rfl)) l.gl_aggregate v
        (by simpa [rangeFiltered] using h)
  · simp [filter_bizarre_values, rangeFiltered, filterValue]
    norm_num

/-- C2 witness: the general part applied to the concrete swapped outcome,
discharging both hypotheses with the theorem's own concrete conjunct. -/
theorem filter_each_le_aggregate_witness : (1000000 : ℚ) ≤ 5000000 := by
  have h := filter_each_le_aggregate
    ⟨some 5000000, some 1000000, none, none, none, none⟩
  exact h.1 1000000 5000000 (by rw [h.2]) (by rw [h.2])

/-- C4: for every limits map, the output of `_filter_bizarre_values` for
each code is either null or inside that code's declared acceptance range
(primary limits and PERS_ADV/PROD_AGG at least $100,000, MED_EXP at most
$100,000, DAMAGE_PREM at most $2,000,000), and an out-of-range input value
is mapped to null, never to a clamped in-range value. -/
theorem filter_null_or_in_range (l : Limits) :
    (∀ v, (filter_bizarre_values l).gl_each_occ = some v → 100000 ≤ v) ∧
    (∀ v, (filter_bizarre_values l).gl_aggregate = some v → 100000 ≤ v) ∧
    (∀ v, (filter_bizarre_values l).gl_pers_adv = some v → 100000 ≤ v) ∧
    (∀ v, (filter_bizarre_values l).gl_prod_agg = some v → 100000 ≤ v) ∧
    (∀ v, (filter_bizarre_values l).gl_med_exp = some v → v ≤ 100000) ∧
    (∀ v, (filter_bizarre_values l).gl_damage_prem = some v → v ≤ 2000000) ∧
    (∀ v, l.gl_each_occ = some v → v < 100000 →
      (filter_bizarre_values l).gl_each_occ = none) ∧
    (∀ v, l.gl_aggregate = some v → v < 100000 →
      (filter_bizarre_values l).gl_aggregate = none) ∧
    (∀ v, l.gl_pers_adv = some v → v < 100000 →
      (filter_bizarre_values l).gl_pers_adv = none) ∧
    (∀ v, l.gl_prod_agg = some v → v < 100000 →
      (filter_bizarre_values l).gl_prod_agg = none) ∧
    (∀ v, l.gl_med_exp = some v → 100000 < v →
      (filter_bizarre_values l).gl_med_exp = none) ∧
    (∀ v, l.gl_damage_prem = some v → 2000000 < v →
      (filter_bizarre_values l).gl_damage_prem = none) := by
  obtain ⟨hp, hq, hd, hm⟩ := fbv_others l
  have hE : ∀ v, (rangeFiltered l).gl_each_occ = some v → 100000 ≤ v :=
    fun v h => bind_primary_ge "GL_EACH_OCC" (Or.inl rfl) l.gl_each_occ v
      (by simpa [rangeFiltered] using h)
  have hA : ∀ v, (rangeFiltered l).gl_aggregate = some v → 100000 ≤ v :=
    fun v h => bind_primary_ge "GL_AGGREGATE" (Or.inr (Or.inl rfl)) l.gl_aggregate v
      (by simpa [rangeFiltered] using h)
  refine ⟨?_, ?_, ?_, ?_, ?_, ?_, ?_, ?_, ?_, ?_, ?_, ?_⟩
  · intro v h
    rcases fbv_each_mem l v h with h' | h'
    · exact hE v h'
    · exact hA v h'
  · intro v h
    rcases fbv_agg_mem l v h with h' | h'
    · exact hE v h'
    · exact hA v h'
  · intro v h
    rw [hp] at h
    exact bind_primary_ge "GL_PERS_ADV" (Or.inr (Or.inr (Or.inl rfl)))
      l.gl_pers_adv v (by simpa [rangeFiltered] using h)
  · intro v h
    rw [hq] at h
    exact bind_primary_ge "GL_PROD_AGG" (Or.inr (Or.inr (Or.inr rfl)))
      l.gl_prod_agg v (by simpa [rangeFiltered] using h)
  · intro v h
    rw [hm] at h
    exact bind_med_le l.gl_med_exp v (by simpa [rangeFiltered] using h)
  · intro v h
    rw [hd] at h
    exact bind_dam_le l.gl_damage_prem v (by simpa [rangeFiltered] using h)
  · intro v hv hlt
    apply fbv_each_none
    simp [rangeFiltered, hv]
    exact filterValue_primary_null "GL_EACH_OCC" (Or.inl rfl) v hlt
  · intro v hv hlt
    apply fbv_agg_none
    simp [rangeFiltered, hv]
    exact filterValue_primary_null "GL_AGGREGATE" (Or.inr (Or.inl rfl)) v hlt
  · intro v hv hlt
    rw [hp]
    simp [rangeFiltered, hv]
    exact filterValue_primary_null "GL_PERS_ADV" (Or.inr (Or.inr (Or.inl rfl))) v hlt
  · intro v hv hlt
    rw [hq]
    simp [rangeFiltered, hv]
    exact filterValue_primary_null "GL_PROD_AGG" (Or.inr (Or.inr (Or.inr rfl))) v hlt
  · intro v hv hgt
    rw [hm]
    simp [rangeFiltered, hv]
    exact filterValue_med_null v hgt
  · intro v hv hgt
    rw [hd]
    simp [rangeFiltered, hv]
    exact filterValue_dam_null v hgt

/-- C4 witness: at a concrete all-out-of-range map, the theorem nulls the
too-small each-occurrence and bounds the surviving PERS_ADV value. -/
theorem filter_null_or_in_range_witness :
    (filter_bizarre_values
      ⟨some 50000, some 500, some 200000, some 99999, some 3000000, some 150000⟩
      ).gl_each_occ = none ∧
    (100000 : ℚ) ≤ 200000 := by
  constructor
  · exact (filter_null_or_in_range
      ⟨some 50000, some 500, some 200000, some 99999, some 3000000, some 150000⟩
      ).2.2.2.2.2.2.1 50000 rfl (by decide)
  · exact (filter_null_or_in_range
      ⟨some 50000, some 500, some 200000, some 99999, some 3000000, some 150000⟩
      ).2.2.1 200000 (by decide)

/-- C6 counterexample: for the map with only `GENERAL AGGREGATE = 500000`
present, `validate_and_score` does not return `0.5`. -/
theorem scenarioB_score_not_half :
    (validate_and_score ⟨none, some 500000, none, none, none, none⟩).1 ≠ 1/2 := by
  simp [validate_and_score, nonNullCount, pyTruthy]

/-- C6 (amended): for the map with only `GENERAL AGGREGATE = 500000`
present, `validate_and_score` returns the score `1/12` (≈ 0.083, the value
of `(1/6) × 0.5 × 1.0`) together with the single issue "Falta limite
principal" recording the missing primary limit. -/
theorem scenarioB_score :
    validate_and_score ⟨none, some 500000, none, none, none, none⟩
      = (1/12, ["Falta limite principal"]) := by
  simp [validate_and_score, nonNullCount, pyTruthy]
  norm_num

end Ace

/-! ## Claim theorems: outcome builder and fallback escalation -/

namespace Ace

/-- C3: the heuristic pipeline violates the coverage-reference invariant.
For a document whose primary limits are extracted but whose policy number
and dates are both absent, `build_extracted_coi` produces an empty policies
list together with two coverages whose `policy_index` (0) does not resolve
into it (and on which `persist_extracted_coi` would raise a `KeyError` at
`policy_id_map[c.policy_index]`). -/
theorem coverage_index_dangling :
    danglingCoi.policies = [] ∧
    danglingCoi.coverages.length = 2 ∧
    ∃ c ∈ danglingCoi.coverages,
      ¬(c.policy_index < danglingCoi.policies.length) := by
  refine ⟨?_, ?_, ?_⟩
  · simp [danglingCoi, build_extracted_coi, pyTruthyStr]
  · simp [danglingCoi, build_extracted_coi, pyTruthyStr, mkCoverage]
  · refine ⟨danglingCoverage, ?_, ?_⟩
    · simp [danglingCoi, danglingCoverage, build_extracted_coi, pyTruthyStr,
        mkCoverage]
    · simp [danglingCoi, build_extracted_coi, pyTruthyStr]

lemma two_fifths_pos : (0:ℚ) < 2/5 := by norm_num

lemma two_fifths_lt_threshold : (2/5:ℚ) < 7/10 := by norm_num

lemma threshold_le_nine_tenths : (7/10:ℚ) ≤ 9/10 := by norm_num

/-- C5 counterexample: with heuristic quality 0.4 and a fallback outcome of
quality 0.5 — strictly higher than the heuristic — the code still returns
the heuristic outcome, because the fallback is only taken when its score
reaches the 0.7 threshold. -/
theorem fallback_below_threshold_not_taken :
    parse_decision (2/5) sampleHeuristic true (.ok (some sampleFallbackLow))
      = some sampleHeuristic ∧
    sampleHeuristic.quality_score < sampleFallbackLow.quality_score ∧
    sampleFallbackLow ≠ sampleHeuristic := by
  refine ⟨?_, ?_, ?_⟩
  · simp [parse_decision, sampleFallbackLow]
    norm_num
  · norm_num [sampleHeuristic, sampleFallbackLow]
  · simp [sampleHeuristic, sampleFallbackLow]

/-- C5 (amended): when the heuristic quality score is strictly between 0
and the 0.7 threshold and the fallback returns an outcome, the fallback
outcome replaces the heuristic one exactly when its own quality score
reaches 0.7 (in which case it necessarily exceeds the heuristic score);
otherwise the heuristic outcome is kept.  The replacement is always one
whole outcome or the other, never a field-level merge. -/
theorem fallback_full_replacement (q : ℚ) (h fr : ExtractedCOI)
    (h0 : 0 < q) (hlt : q < 7/10) :
    parse_decision q h true (.ok (some fr))
      = (if 7/10 ≤ fr.quality_score then some fr else some h) := by
  unfold parse_decision
  rw [if_neg (ne_of_gt h0), if_neg (not_le.mpr hlt)]
  simp

/-- C5 witness (spec scenario D): heuristic quality 0.4, fallback quality
0.9 — the persisted outcome is the fallback one, whose source is the AI
fallback method. -/
theorem fallback_full_replacement_witness :
    parse_decision (2/5) sampleHeuristic true (.ok (some sampleFallbackHigh))
      = some sampleFallbackHigh ∧ sampleFallbackHigh.source = "CLAUDE_HAIKU" :=
  ⟨(fallback_full_replacement (2/5) sampleHeuristic sampleFallbackHigh
      two_fifths_pos two_fifths_lt_threshold).trans
      (if_pos threshold_le_nine_tenths),
   rfl⟩

/-- C8: when the heuristic quality score is positive but below the 0.7
threshold, a fallback failure — the call raising (`.error`, covering
timeouts and any service exception) or returning no outcome (`.ok none`,
covering malformed/absent responses) — leaves the heuristic outcome in
place; the run still returns it and never fails because of the fallback. -/
theorem fallback_failure_degrades (q : ℚ) (h : ExtractedCOI) (cfg : Bool)
    (e : String) (h0 : 0 < q) (hlt : q < 7/10) :
    parse_decision q h cfg (.error e) = some h ∧
    parse_decision q h cfg (.ok none) = some h := by
  constructor <;>
  · unfold parse_decision
    rw [if_neg (ne_of_gt h0), if_neg (not_le.mpr hlt)]
    cases cfg <;> simp

/-- C8 witness: heuristic quality 0.4 and a fallback raising a timeout —
the heuristic outcome is returned. -/
theorem fallback_failure_degrades_witness :
    parse_decision (2/5) sampleHeuristic true (.error "timeout")
      = some sampleHeuristic :=
  (fallback_failure_degrades (2/5) sampleHeuristic true "timeout"
    two_fifths_pos two_fifths_lt_threshold).1

end Ace

/-! ## Claim theorems: document classifier and policy-number extraction -/

namespace Ace

/-- C7: for every matcher, text, and candidate pattern set, if at least one
required pattern fails to match then `_evaluate_type` scores exactly 0
regardless of strong matches; if all required patterns match, the score is
exactly `min(1.0, (0.5 + 0.1 × strong-match-count) × weight)`. -/
theorem required_pattern_gates_score (m : String → String → Bool)
    (text : String) (required strong : List String) (weight : ℚ) :
    ((∃ p ∈ required, m p text = false) →
      (evaluate_type m text required strong weight).1 = 0) ∧
    ((∀ p ∈ required, m p text = true) →
      (evaluate_type m text required strong weight).1
        = min 1 ((1/2 + (strong.countP (fun p => m p text) : ℚ)/10) * weight)) := by
  constructor
  · rintro ⟨p, hp, hfalse⟩
    have hlt : required.countP (fun p => m p text) < required.length := by
      refine lt_of_le_of_ne (List.countP_le_length _) (fun heq => ?_)
      have := List.countP_eq_length.mp heq p hp
      simp [hfalse] at this
    simp only [evaluate_type]
    rw [if_pos hlt]
  · intro hall
    have heq : required.countP (fun p => m p text) = required.length :=
      List.countP_eq_length.mpr (fun a ha => by simp [hall a ha])
    simp only [evaluate_type]
    rw [if_neg (not_lt.mpr (le_of_eq heq.symm))]

/-- C7 witness: with a matcher that only matches the literal `"ACORD"`, a
type requiring two patterns of which one is absent scores 0 even though a
strong pattern matches, and a type whose single required pattern matches
scores `min(1, (0.5 + 0.1 × 1) × 1) = 0.6`. -/
theorem required_pattern_gates_score_witness :
    (evaluate_type (fun p _ => p == "ACORD") "T"
      ["ACORD", "CERTIFICATE"] ["ACORD"] 1).1 = 0 ∧
    (evaluate_type (fun p _ => p == "ACORD") "T"
      ["ACORD"] ["ACORD", "LIABILITY"] 1).1
      = min 1 ((1/2 + (1 : ℚ)/10) * 1) := by
  constructor
  · exact (required_pattern_gates_score (fun p _ => p == "ACORD") "T"
      ["ACORD", "CERTIFICATE"] ["ACORD"] 1).1
      ⟨"CERTIFICATE", by simp, by decide⟩
  · exact (required_pattern_gates_score (fun p _ => p == "ACORD") "T"
      ["ACORD"] ["ACORD", "LIABILITY"] 1).2 (by decide)

/-- C10: whenever `extract_policy_number` returns a value, that value is
between 6 and 20 characters long and is not purely numeric; and when no
stripped candidate satisfies those constraints it returns null (the
function is total: it never raises). -/
theorem policy_number_shape (raw : List String) :
    (∀ v, extract_policy_number raw = some v →
      6 ≤ v.length ∧ v.length ≤ 20 ∧ pyIsDigit v = false) ∧
    ((∀ s ∈ raw, ¬(6 ≤ (pyStrip s).length ∧ (pyStrip s).length ≤ 20 ∧
        pyIsDigit (pyStrip s) = false)) →
      extract_policy_number raw = none) := by
  constructor
  · intro v hv
    unfold extract_policy_number at hv
    have hmem := List.mem_of_mem_head? hv
    have hpred := (List.mem_filter.mp hmem).2
    simp only [Bool.and_eq_true, decide_eq_true_eq, Bool.not_eq_true'] at hpred
    exact ⟨hpred.1.1, hpred.1.2, hpred.2⟩
  · intro hall
    unfold extract_policy_number
    have hnil : (raw.map pyStrip).filter
        (fun s => decide (6 ≤ s.length) && decide (s.length ≤ 20) &&
          !(pyIsDigit s)) = [] := by
      refine List.filter_eq_nil_iff.mpr ?_
      intro a ha
      obtain ⟨s, hs, rfl⟩ := List.mem_map.mp ha
      have hno := hall s hs
      simp only [Bool.and_eq_true, decide_eq_true_eq, Bool.not_eq_true']
      intro hcon
      exact hno ⟨hcon.1.1, hcon.1.2, hcon.2⟩
    rw [hnil]
    rfl

/-- C10 witness: among a raw capture list whose first candidate is valid
after stripping and whose second is purely numeric, the returned value
satisfies the shape constraints; and an all-invalid list yields null. -/
theorem policy_number_shape_witness :
    (6 ≤ "GL-123456".length ∧ "GL-123456".length ≤ 20 ∧
      pyIsDigit "GL-123456" = false) ∧
    extract_policy_number ["123456789", "AB1"] = none := by
  constructor
  · exact (policy_number_shape ["  GL-123456  ", "123456789"]).1
      "GL-123456" (by decide)
  · exact (policy_number_shape ["123456789", "AB1"]).2 (by decide)

end Ace

/-! ## Claim theorems: run orchestrator -/

namespace Ace

lemma countAcquire_append (l1 l2 : List Event) :
    countAcquire (l1 ++ l2) = countAcquire l1 + countAcquire l2 := by
  induction l1 with
  | nil => simp [countAcquire]
  | cons e rest ih => cases e <;> simp [countAcquire, ih] <;> omega

lemma countParse_append (l1 l2 : List Event) :
    countParse (l1 ++ l2) = countParse l1 + countParse l2 := by
  induction l1 with
  | nil => simp [countParse]
  | cons e rest ih => cases e <;> simp [countParse, ih] <;> omega

lemma countPersist_append (l1 l2 : List Event) :
    countPersist (l1 ++ l2) = countPersist l1 + countPersist l2 := by
  induction l1 with
  | nil => simp [countPersist]
  | cons e rest ih => cases e <;> simp [countPersist, ih] <;> omega

lemma retryAcquire_counts (acquire : ℕ → Except String String) (r a : ℕ) :
    countAcquire (retryAcquire acquire a r).2 ≤ r ∧
    countParse (retryAcquire acquire a r).2 = 0 ∧
    countPersist (retryAcquire acquire a r).2 = 0 := by
  induction r generalizing a with
  | zero =>
      simp [retryAcquire, countAcquire, countParse, countPersist]
  | succ n ih =>
      unfold retryAcquire
      rcases h : acquire a with m | t <;> simp only [h]
      · by_cases hn : n = 0
        · subst hn
          simp [countAcquire, countParse, countPersist]
        · rw [if_neg hn]
          obtain ⟨h1, h2, h3⟩ := ih (a + 1)
          simp [countAcquire, countParse, countPersist]
          omega
      · simp [countAcquire, countParse, countPersist]

lemma runBody_counts (b : StepBehavior) :
    countAcquire (runBody b).2 ≤ 3 ∧
    countParse (runBody b).2 ≤ 1 ∧
    countPersist (runBody b).2 ≤ 1 := by
  obtain ⟨hA, hP, hQ⟩ := retryAcquire_counts b.acquire 3 1
  unfold runBody
  rcases hacq : (extract_text_with_retry b.acquire).1 with e | t <;>
    simp only [hacq]
  · simp [countAcquire_append, countParse_append, countPersist_append,
      countAcquire, countParse, countPersist, extract_text_with_retry] at *
    omega
  · rcases hp : b.parseRes with m | coi <;> simp only [hp]
    · simp [countAcquire_append, countParse_append, countPersist_append,
        countAcquire, countParse, countPersist, extract_text_with_retry] at *
      omega
    · rcases hq : b.persistRes with m2 | u <;> simp only [hq]
      · simp [countAcquire_append, countParse_append, countPersist_append,
          countAcquire, countParse, countPersist, extract_text_with_retry] at *
        omega
      · simp [countAcquire_append, countParse_append, countPersist_append,
          countAcquire, countParse, countPersist, extract_text_with_retry] at *
        omega

lemma process_counts (b : StepBehavior) :
    countAcquire (process_certificate b).events ≤ 3 ∧
    countParse (process_certificate b).events ≤ 1 ∧
    countPersist (process_certificate b).events ≤ 1 := by
  obtain ⟨hA, hP, hQ⟩ := runBody_counts b
  unfold process_certificate
  rcases hd : dbTransaction (runBody b).1 with e | u <;> try simp only [hd]
  · rcases e with m | m | m | m | m <;>
      first
      | exact ⟨hA, hP, hQ⟩
      | · simp [countAcquire_append, countParse_append, countPersist_append,
            countAcquire, countParse, countPersist]
          omega
  · exact ⟨hA, hP, hQ⟩

lemma retryAcquire_all_fail (acquire : ℕ → Except String String)
    (m1 m2 m3 : String) (h1 : acquire 1 = .error m1)
    (h2 : acquire 2 = .error m2) (h3 : acquire 3 = .error m3) :
    extract_text_with_retry acquire =
      (.error (.retryExhausted m3),
       [.acquireCall 1, .waitSeconds 2, .acquireCall 2, .waitSeconds 4,
        .acquireCall 3]) := by
  unfold extract_text_with_retry
  simp [retryAcquire, h1, h2, h3, backoffWait]
  norm_num

lemma runBody_all_fail (b : StepBehavior) (m1 m2 m3 : String)
    (h1 : b.acquire 1 = .error m1) (h2 : b.acquire 2 = .error m2)
    (h3 : b.acquire 3 = .error m3) :
    runBody b =
      (.error (.retryExhausted m3),
       [.statusWrite .STARTED, .statusWrite .OCR_IN_PROGRESS,
        .acquireCall 1, .waitSeconds 2, .acquireCall 2, .waitSeconds 4,
        .acquireCall 3]) := by
  unfold runBody
  rw [retryAcquire_all_fail b.acquire m1 m2 m3 h1 h2 h3]
  rfl

/-- C9: in `process_certificate`, only text acquisition is auto-retried —
at most 3 OCR attempts, at most one parse and one persist call in every
run — and when all three OCR attempts fail the run performs exactly the
run-creation write, the OCR_IN_PROGRESS write, three acquisition attempts
separated by the exponential backoff sleeps of 2 s and 4 s, and nothing
else: the PARSING status is never written and the parser is never called.
However, the run then ends with result status FAILED — not the
acquisition-failed status OCR_FAILED, because `_db_transaction` re-raises
the retry exhaustion as DatabaseException, which skips the
`except OCRException` handler — its committed run-status trail is empty
(the transaction rolled back), and the (spec-modelled) certificate status
is FAILED. -/
theorem acquisition_retry_behavior (b : StepBehavior) :
    (countAcquire (process_certificate b).events ≤ 3 ∧
     countParse (process_certificate b).events ≤ 1 ∧
     countPersist (process_certificate b).events ≤ 1) ∧
    (∀ m1 m2 m3, b.acquire 1 = .error m1 → b.acquire 2 = .error m2 →
      b.acquire 3 = .error m3 →
      (process_certificate b).events =
        [.statusWrite .STARTED, .statusWrite .OCR_IN_PROGRESS,
         .acquireCall 1, .waitSeconds 2, .acquireCall 2, .waitSeconds 4,
         .acquireCall 3] ∧
      (process_certificate b).resultStatus = .FAILED ∧
      (process_certificate b).committedWrites = [] ∧
      (process_certificate b).certStatus = .FAILED ∧
      countParse (process_certificate b).events = 0 ∧
      Event.statusWrite .PARSING ∉ (process_certificate b).events) := by
  constructor
  · exact process_counts b
  · intro m1 m2 m3 h1 h2 h3
    have hb := runBody_all_fail b m1 m2 m3 h1 h2 h3
    have hres : process_certificate b =
        { resultStatus := .FAILED,
          events := [.statusWrite .STARTED, .statusWrite .OCR_IN_PROGRESS,
            .acquireCall 1, .waitSeconds 2, .acquireCall 2, .waitSeconds 4,
            .acquireCall 3],
          committedWrites := [],
          certStatus := .FAILED } := by
      simp [process_certificate, hb, dbTransaction, describeError, certStatusFor]
    rw [hres]
    exact ⟨rfl, rfl, rfl, rfl, by simp [countParse], by decide⟩

/-- C9 witness: for the concrete environment whose OCR attempts all raise,
the run ends with result status FAILED, an empty committed trail, and no
parser call. -/
theorem acquisition_retry_behavior_witness :
    (process_certificate allFailBehavior).resultStatus = .FAILED ∧
    (process_certificate allFailBehavior).committedWrites = [] ∧
    countParse (process_certificate allFailBehavior).events = 0 :=
  have h := (acquisition_retry_behavior allFailBehavior).2
    "ocr down" "ocr down" "ocr down" rfl rfl rfl
  ⟨h.2.1, h.2.2.1, h.2.2.2.2.1⟩

end Ace
